import Mathlib

/-!
# Verification of the ollama-local-serve core against its specification

Shallow embedding of the repository's core components:

* `config.py` — `NetworkConfig` and its `__post_init__` validation;
* `service.py` — `OllamaService.start` / `stop` / `health_check`
  (process lifecycle supervision and the bounded-retry health probe);
* `api/dependencies.py` — `DatabaseManager` (dual-backend query router
  with its ClickHouse and Postgres adapters).

External effects (process spawning, signals, HTTP probes, SQL execution)
are modelled as explicit inputs describing the outcome the environment
produces, so every function is a pure, executable Lean definition whose
control flow mirrors the Python source line by line.

Time is modelled in seconds as `Nat`; SQL numeric values as `Rat`.
-/

/-! ## `config.py` : `NetworkConfig` -/

/-- The fields of the frozen dataclass `NetworkConfig` (`config.py`). -/
structure NetworkConfig where
  host : String
  port : Int
  timeout : Int
  max_retries : Int
deriving DecidableEq, Repr

/-- `NetworkConfig(host, port, timeout, max_retries)` including the
`__post_init__` validation (`config.py` lines 27-34): each field check
raises `ValueError` (modelled as `Except.error`) in source order.
The Python `isinstance(_, int)` guards hold by typing here. -/
def mkNetworkConfig (host : String) (port timeout max_retries : Int) :
    Except String NetworkConfig :=
  if ¬ (1 ≤ port ∧ port ≤ 65535) then
    Except.error "Port must be between 1 and 65535"
  else if ¬ (0 < timeout) then
    Except.error "Timeout must be positive"
  else if ¬ (0 ≤ max_retries) then
    Except.error "Max retries must be non-negative"
  else
    Except.ok { host := host, port := port, timeout := timeout, max_retries := max_retries }

/-- Whether construction succeeded (no exception escaped `__post_init__`). -/
def constructionOk (r : Except String NetworkConfig) : Bool :=
  match r with
  | Except.ok _ => true
  | Except.error _ => false

/-! ## Error taxonomy

Modelled from the spec: the module `ollama_local_serve/exceptions.py` is
imported by `service.py` but is not part of the provided sources.  The
spec's §7 taxonomy names four distinct error kinds — `StartError`,
`StopError`, `ConnectionError` ("network-level unreachability,
distinguished from application-level unhealthiness") and
`HealthCheckError` — so they are embedded as distinct alternatives with
no subtyping between them. -/

/-- Outcome of one HTTP probe attempt inside `health_check`:
an HTTP response with some status code, an `aiohttp.ClientError`
(connection-level failure), or any other unexpected exception. -/
inductive ProbeOutcome where
  | http (code : Nat)
  | clientError
  | unexpected
deriving DecidableEq, Repr

/-- How a `health_check` call ends: a normal return carrying the returned
boolean, or one of the two exceptions it can raise
(`ConnectionError` / `HealthCheckError`, modelled from the spec's §7
taxonomy as distinct kinds; `exceptions.py` is not in the sources). -/
inductive HCResult where
  | ok (value : Bool)
  | connectionError
  | healthCheckError
deriving DecidableEq, Repr

/-- Observable trace of a `health_check` call: its result, the number of
probe attempts issued, and the number of 1-second backoff sleeps
(`await asyncio.sleep(1)`) performed. -/
structure HCTrace where
  result : HCResult
  attempts : Nat
  sleeps : Nat
deriving DecidableEq, Repr

/-- The body of the `for attempt in range(max_retries + 1)` loop of
`OllamaService.health_check` (`service.py` lines 196-222).  `out n` is
the outcome the environment produces for probe attempt `n`; `fuel` is
the number of loop iterations left, `max_retries + 1 - attempt` at every
call.  Branches, in source order:

* HTTP 200 → `return True`;
* any other HTTP status → log, next iteration (no sleep);
* `aiohttp.ClientError` on a non-final attempt → `await asyncio.sleep(1)`
  then retry; on the final attempt → `raise ConnectionError`;
* any other exception → `raise HealthCheckError` immediately;
* loop exhausted → `raise HealthCheckError` naming the attempt count. -/
def healthCheckAux (out : Nat → ProbeOutcome) (max_retries : Nat) :
    Nat → Nat → Nat → HCTrace
  | attempt, sleeps, 0 => { result := HCResult.healthCheckError, attempts := attempt, sleeps := sleeps }
  | attempt, sleeps, fuel + 1 =>
    match out attempt with
    | ProbeOutcome.http code =>
      if code = 200 then
        { result := HCResult.ok true, attempts := attempt + 1, sleeps := sleeps }
      else
        healthCheckAux out max_retries (attempt + 1) sleeps fuel
    | ProbeOutcome.clientError =>
      if attempt < max_retries then
        healthCheckAux out max_retries (attempt + 1) (sleeps + 1) fuel
      else
        { result := HCResult.connectionError, attempts := attempt + 1, sleeps := sleeps }
    | ProbeOutcome.unexpected =>
      { result := HCResult.healthCheckError, attempts := attempt + 1, sleeps := sleeps }

/-- `OllamaService.health_check(retries)` (`service.py` lines 179-222)
with the per-call retry budget already resolved
(`retries if retries is not None else config.max_retries`). -/
def health_check (out : Nat → ProbeOutcome) (max_retries : Nat) : HCTrace :=
  healthCheckAux out max_retries 0 0 (max_retries + 1)

/-! ## `service.py` : `OllamaService.start` / `stop` -/

/-- The supervisor's mutable fields: `_is_running` and `_process`
(the `subprocess.Popen` handle, identified by its pid). -/
structure ServiceState where
  is_running : Bool
  process : Option Nat
deriving DecidableEq, Repr

/-- Outcome the OS produces for `subprocess.Popen([binary, "serve"], ...)`:
a spawned process, or `FileNotFoundError` (binary missing). -/
inductive SpawnOutcome where
  | spawned (pid : Nat)
  | binaryMissing
deriving DecidableEq, Repr

/-- How `start` ends: normal return, or `raise ServiceStartError`. -/
inductive StartResult where
  | returned
  | serviceStartError
deriving DecidableEq, Repr

/-- `OllamaService.start(startup_delay)` (`service.py` lines 67-134).
Environment inputs: `spawn` (what `Popen` does), `exited_immediately`
(whether `poll()` is non-`None` after the startup delay), and `probe`
(how the internal `health_check()` call ends).  Returns the new state,
how the call ends, and whether a process was spawned.  Paths:

* `_is_running` set → warn and return, nothing else happens;
* `FileNotFoundError` from `Popen` → `raise ServiceStartError`
  (`_process` was never assigned, nothing is cleaned up);
* process exited immediately → `ServiceStartError` raised inside the
  `try`, caught by `except Exception` which kills the process, sets
  `_process = None` and re-raises `ServiceStartError`;
* probe returns (value ignored) or raises `HealthCheckError` →
  absorbed, `_is_running = True`;
* probe raises `ConnectionError` → not matched by
  `except HealthCheckError`, caught by `except Exception`: the process
  is killed, `_process = None`, `ServiceStartError` raised. -/
def start (st : ServiceState) (spawn : SpawnOutcome) (exited_immediately : Bool)
    (probe : HCResult) : ServiceState × StartResult × Bool :=
  if st.is_running then
    (st, StartResult.returned, false)
  else
    match spawn with
    | SpawnOutcome.binaryMissing => (st, StartResult.serviceStartError, false)
    | SpawnOutcome.spawned pid =>
      if exited_immediately then
        ({ st with process := none }, StartResult.serviceStartError, true)
      else
        match probe with
        | HCResult.ok _ =>
          ({ st with process := some pid, is_running := true }, StartResult.returned, true)
        | HCResult.healthCheckError =>
          ({ st with process := some pid, is_running := true }, StartResult.returned, true)
        | HCResult.connectionError =>
          ({ st with process := none }, StartResult.serviceStartError, true)

/-- How `stop` ends: normal return, or `raise ServiceStopError`. -/
inductive StopResult where
  | returned
  | serviceStopError
deriving DecidableEq, Repr

/-- Environment behaviour during `stop`: whether the SIGTERM
group-signaling step raises, whether the process exits within the
graceful `wait(timeout)`, and whether the SIGKILL escalation raises. -/
structure StopWorld where
  term_signal_fails : Bool
  exits_within_timeout : Bool
  kill_fails : Bool
deriving DecidableEq, Repr

/-- `OllamaService.stop(timeout)` (`service.py` lines 136-177).  Paths:

* not running or no handle → warn and return;
* SIGTERM signaling raises → caught by `except Exception`, which only
  logs and raises `ServiceStopError`; note that the lines
  `self._is_running = False` / `self._process = None` sit inside the
  `try` *after* the wait, so on this path neither field is touched;
* graceful wait succeeds → `_is_running = False`, `_process = None`;
* wait times out → SIGKILL escalation; if that raises, same
  `except Exception` path (fields untouched); otherwise cleanup. -/
def stop (st : ServiceState) (w : StopWorld) : ServiceState × StopResult :=
  if !st.is_running || st.process.isNone then
    (st, StopResult.returned)
  else if w.term_signal_fails then
    (st, StopResult.serviceStopError)
  else if w.exits_within_timeout then
    ({ st with is_running := false, process := none }, StopResult.returned)
  else if w.kill_fails then
    (st, StopResult.serviceStopError)
  else
    ({ st with is_running := false, process := none }, StopResult.returned)

/-! ## `api/dependencies.py` : `DatabaseManager`

Each SQL statement is embedded as a pure function over the table it
reads (`ollama_metrics` rows or `request_logs` rows).  A live backend
connection carries its table contents plus a `failing` flag; when the
flag is set every query execution on that connection raises, which is
what each adapter's `try`/`except` catches. -/

/-- One row of the `ollama_metrics` table. -/
structure MetricRow where
  timestamp : Nat
  metric_name : String
  metric_value : Rat
deriving DecidableEq, Repr

/-- One row of the `request_logs` table. -/
structure LogRow where
  request_id : String
  timestamp : Nat
  model : String
  tokens_generated : Int
  latency_ms : Rat
  status : String
  error_message : Option String
deriving DecidableEq, Repr

/-- `DatabaseConfig.exporter_type` (`Literal["clickhouse", "postgres", "both"]`). -/
inductive ExporterType where
  | clickhouse
  | postgres
  | both
deriving DecidableEq, Repr, BEq

/-- A live backend connection (ClickHouse client or Postgres session
factory): the data its queries would see, and whether query execution
raises. -/
structure DBConn where
  failing : Bool
  metrics : List MetricRow
  request_logs : List LogRow
deriving DecidableEq, Repr

/-- A storage-layer exception escaping a query execution. -/
inductive DBError where
  | queryFailed
deriving DecidableEq, Repr

/-- Executing a query against the `ollama_metrics` table. -/
def execMetrics (c : DBConn) : Except DBError (List MetricRow) :=
  if c.failing then Except.error DBError.queryFailed else Except.ok c.metrics

/-- Executing a query against the `request_logs` table. -/
def execLogs (c : DBConn) : Except DBError (List LogRow) :=
  if c.failing then Except.error DBError.queryFailed else Except.ok c.request_logs

/-- The `DatabaseManager` fields relevant to queries: `config.exporter_type`,
`_clickhouse_client`, `_postgres_session_factory`, `_start_time`. -/
structure DBState where
  exporter_type : ExporterType
  clickhouse_client : Option DBConn
  postgres_session_factory : Option DBConn
  start_time : Nat
deriving DecidableEq, Repr

/-- `DatabaseManager.uptime_seconds` (`dependencies.py` lines 173-176):
`(datetime.utcnow() - self._start_time).total_seconds()`. -/
def uptime_seconds (st : DBState) (now : Nat) : Rat :=
  (now : Rat) - (st.start_time : Rat)

/-- The snapshot dictionary produced by the current-stats queries. -/
structure StatsSnapshot where
  tokens_total : Int
  tokens_per_sec : Rat
  uptime_hours : Rat
  error_count : Int
  request_count : Int
  avg_latency_ms : Rat
  models_available : Int
  timestamp : Nat
deriving DecidableEq, Repr

/-- Python `int(q)`: truncation toward zero. -/
def pyInt (q : Rat) : Int :=
  if 0 ≤ q then ⌊q⌋ else ⌈q⌉

/-- SQL `sum(CASE WHEN metric_name = name THEN metric_value ELSE 0 END)`. -/
def sumWhere (name : String) (rows : List MetricRow) : Rat :=
  (rows.map (fun r => if r.metric_name = name then r.metric_value else 0)).sum

/-- SQL `count(CASE WHEN metric_name = name THEN 1 ELSE NULL END)`. -/
def countWhere (name : String) (rows : List MetricRow) : Nat :=
  (rows.filter (fun r => r.metric_name == name)).length

/-- SQL `avg(CASE WHEN metric_name = name THEN metric_value ELSE NULL END)`:
`NULL` (here `none`) when no row matches. -/
def avgWhere (name : String) (rows : List MetricRow) : Option Rat :=
  let vs := (rows.filter (fun r => r.metric_name == name)).map (fun r => r.metric_value)
  if vs.length = 0 then none else some (vs.sum / (vs.length : Rat))

/-- SQL `max(metric_value)` over rows matching `name`; `NULL` when empty. -/
def maxWhere (name : String) (rows : List MetricRow) : Option Rat :=
  match (rows.filter (fun r => r.metric_name == name)).map (fun r => r.metric_value) with
  | [] => none
  | v :: vs => some (vs.foldl max v)

/-- `DatabaseManager._get_empty_stats` (`dependencies.py` lines 290-301). -/
def _get_empty_stats (st : DBState) (now : Nat) : StatsSnapshot :=
  { tokens_total := 0
    tokens_per_sec := 0
    uptime_hours := uptime_seconds st now / 3600
    error_count := 0
    request_count := 0
    avg_latency_ms := 0
    models_available := 0
    timestamp := now }

/-- `DatabaseManager._get_current_stats_clickhouse`
(`dependencies.py` lines 191-240): the totals query, the last-hour
tokens-per-second query and the uptime query, all over `ollama_metrics`;
any exception is caught and converted to `_get_empty_stats()`. -/
def _get_current_stats_clickhouse (st : DBState) (c : DBConn) (now : Nat) : StatsSnapshot :=
  match execMetrics c with
  | Except.error _ => _get_empty_stats st now
  | Except.ok rows =>
    let tps_rows := rows.filter
      (fun r => (r.metric_name == "ollama_tokens_generated_total") &&
        decide (now - 3600 ≤ r.timestamp))
    { tokens_total := pyInt (sumWhere "ollama_tokens_generated_total" rows)
      tokens_per_sec := (tps_rows.map (fun r => r.metric_value)).sum / 3600
      uptime_hours := ((maxWhere "ollama_uptime_seconds" rows).getD 0) / 3600
      error_count := pyInt (sumWhere "ollama_errors_total" rows)
      request_count := (countWhere "ollama_requests_total" rows : Int)
      avg_latency_ms := (avgWhere "ollama_request_latency_ms" rows).getD 0
      models_available := 0
      timestamp := now }

/-- `DatabaseManager._get_current_stats_postgres`
(`dependencies.py` lines 242-288): same totals and tokens-per-second
queries, but `uptime_hours` comes from the manager's own
`uptime_seconds / 3600`; any exception → `_get_empty_stats()`. -/
def _get_current_stats_postgres (st : DBState) (c : DBConn) (now : Nat) : StatsSnapshot :=
  match execMetrics c with
  | Except.error _ => _get_empty_stats st now
  | Except.ok rows =>
    let tps_rows := rows.filter
      (fun r => (r.metric_name == "ollama_tokens_generated_total") &&
        decide (now - 3600 ≤ r.timestamp))
    { tokens_total := pyInt (sumWhere "ollama_tokens_generated_total" rows)
      tokens_per_sec := (tps_rows.map (fun r => r.metric_value)).sum / 3600
      uptime_hours := uptime_seconds st now / 3600
      error_count := pyInt (sumWhere "ollama_errors_total" rows)
      request_count := (countWhere "ollama_requests_total" rows : Int)
      avg_latency_ms := (avgWhere "ollama_request_latency_ms" rows).getD 0
      models_available := 0
      timestamp := now }

/-- The dispatch of `DatabaseManager.get_current_stats`
(`dependencies.py` lines 182-189): ClickHouse adapter when the exporter
type is `clickhouse`/`both` and the ClickHouse client is live, else the
Postgres adapter when a session factory is live, else empty stats. -/
def get_current_stats (st : DBState) (now : Nat) : StatsSnapshot :=
  let pg := match st.postgres_session_factory with
    | some p => _get_current_stats_postgres st p now
    | none => _get_empty_stats st now
  match st.clickhouse_client with
  | some c =>
    if st.exporter_type == ExporterType.clickhouse || st.exporter_type == ExporterType.both then
      _get_current_stats_clickhouse st c now
    else pg
  | none => pg

/-! ### History -/

/-- One element of the list returned by the history queries. -/
structure HistoryPoint where
  timestamp : Nat
  tokens_total : Int
  latency_ms : Rat
  throughput : Rat
  error_count : Int
deriving DecidableEq, Repr

/-- ClickHouse `toStartOfInterval(timestamp, INTERVAL g MINUTE)`. -/
def toStartOfInterval (granularity_minutes ts : Nat) : Nat :=
  ts / (granularity_minutes * 60) * (granularity_minutes * 60)

/-- Postgres `date_trunc('minute', timestamp)` — note the fixed
`'minute'` field in the source, independent of the granularity. -/
def date_trunc_minute (ts : Nat) : Nat :=
  ts / 60 * 60

/-- The `WHERE timestamp >= now() - INTERVAL hours HOUR` filter of the
history queries. -/
def historyWindow (rows : List MetricRow) (now hours : Nat) : List MetricRow :=
  rows.filter (fun r => decide (now - hours * 3600 ≤ r.timestamp))

/-- SQL `GROUP BY time_bucket ORDER BY time_bucket DESC`: the distinct
bucket keys of the in-window rows, newest first. -/
def bucketKeys (trunc : Nat → Nat) (rows : List MetricRow) (now hours : Nat) : List Nat :=
  List.insertionSort (· ≥ ·) ((historyWindow rows now hours).map (fun r => trunc r.timestamp)).dedup

/-- The aggregate row the history queries produce for one bucket `b`:
summed tokens, averaged latency (`NULL → 0` via `float(row[2] or 0)`),
request count divided by the granularity in minutes, summed errors. -/
def historyPoint (trunc : Nat → Nat) (rows : List MetricRow)
    (now hours granularity_minutes b : Nat) : HistoryPoint :=
  let rs := (historyWindow rows now hours).filter (fun r => trunc r.timestamp == b)
  { timestamp := b
    tokens_total := pyInt (sumWhere "ollama_tokens_generated_total" rs)
    latency_ms := (avgWhere "ollama_request_latency_ms" rs).getD 0
    throughput := (countWhere "ollama_requests_total" rs : Rat) / (granularity_minutes : Rat)
    error_count := pyInt (sumWhere "ollama_errors_total" rs) }

/-- `DatabaseManager._get_history_clickhouse`
(`dependencies.py` lines 330-366): buckets by
`toStartOfInterval(timestamp, INTERVAL granularity_minutes MINUTE)`;
any exception → `[]`. -/
def _get_history_clickhouse (c : DBConn) (now hours granularity_minutes : Nat) :
    List HistoryPoint :=
  match execMetrics c with
  | Except.error _ => []
  | Except.ok rows =>
    (bucketKeys (toStartOfInterval granularity_minutes) rows now hours).map
      (historyPoint (toStartOfInterval granularity_minutes) rows now hours granularity_minutes)

/-- `DatabaseManager._get_history_postgres`
(`dependencies.py` lines 368-409): buckets by
`date_trunc('minute', timestamp)` — a fixed one-minute truncation,
whatever the requested granularity — while still dividing the request
count by `granularity_minutes`; any exception → `[]`. -/
def _get_history_postgres (c : DBConn) (now hours granularity_minutes : Nat) :
    List HistoryPoint :=
  match execMetrics c with
  | Except.error _ => []
  | Except.ok rows =>
    (bucketKeys date_trunc_minute rows now hours).map
      (historyPoint date_trunc_minute rows now hours granularity_minutes)

/-- `range_map = {"1h": 1, "6h": 6, "24h": 24}` with `.get(_, 1)`. -/
def range_map (time_range : String) : Nat :=
  match time_range with
  | "1h" => 1
  | "6h" => 6
  | "24h" => 24
  | _ => 1

/-- `granularity_map = {"1m": 1, "5m": 5, "1h": 60}` with `.get(_, 1)`. -/
def granularity_map (granularity : String) : Nat :=
  match granularity with
  | "1m" => 1
  | "5m" => 5
  | "1h" => 60
  | _ => 1

/-- `DatabaseManager.get_history` (`dependencies.py` lines 303-328):
parses range and granularity, then dispatches like `get_current_stats`
(empty list when no backend is live). -/
def get_history (st : DBState) (time_range granularity : String) (now : Nat) :
    List HistoryPoint :=
  let hours := range_map time_range
  let minutes := granularity_map granularity
  let pg := match st.postgres_session_factory with
    | some p => _get_history_postgres p now hours minutes
    | none => []
  match st.clickhouse_client with
  | some c =>
    if st.exporter_type == ExporterType.clickhouse || st.exporter_type == ExporterType.both then
      _get_history_clickhouse c now hours minutes
    else pg
  | none => pg

/-! ### Logs and model stats -/

/-- The `{"total": ..., "logs": [...]}` dictionary returned by the log
queries. -/
structure LogsPage where
  total : Nat
  logs : List LogRow
deriving DecidableEq, Repr

/-- The optional equality filters on `status` and `model` shared by the
two log queries (`WHERE status = :status AND model = :model`). -/
def logsWhere (status model : Option String) (rows : List LogRow) : List LogRow :=
  rows.filter (fun r =>
    (match status with
     | some s => r.status == s
     | none => true) &&
    (match model with
     | some m => r.model == m
     | none => true))

/-- The shared body of the two log adapters: total count of matching
rows, plus the page `ORDER BY timestamp DESC LIMIT limit OFFSET offset`. -/
def logsPageFrom (rows : List LogRow) (limit offset : Nat)
    (status model : Option String) : LogsPage :=
  let filtered := logsWhere status model rows
  let sorted := List.insertionSort (fun a b => b.timestamp ≤ a.timestamp) filtered
  { total := filtered.length, logs := (sorted.drop offset).take limit }

/-- `DatabaseManager._get_logs_clickhouse` (`dependencies.py` lines
434-490); any exception → `{"total": 0, "logs": []}`. -/
def _get_logs_clickhouse (c : DBConn) (limit offset : Nat)
    (status model : Option String) : LogsPage :=
  match execLogs c with
  | Except.error _ => { total := 0, logs := [] }
  | Except.ok rows => logsPageFrom rows limit offset status model

/-- `DatabaseManager._get_logs_postgres` (`dependencies.py` lines
492-553); any exception → `{"total": 0, "logs": []}`. -/
def _get_logs_postgres (c : DBConn) (limit offset : Nat)
    (status model : Option String) : LogsPage :=
  match execLogs c with
  | Except.error _ => { total := 0, logs := [] }
  | Except.ok rows => logsPageFrom rows limit offset status model

/-- `DatabaseManager.get_logs` (`dependencies.py` lines 411-432):
dispatch as in `get_current_stats`; `{"total": 0, "logs": []}` when no
backend is live. -/
def get_logs (st : DBState) (limit offset : Nat)
    (status model : Option String) : LogsPage :=
  let pg := match st.postgres_session_factory with
    | some p => _get_logs_postgres p limit offset status model
    | none => { total := 0, logs := [] }
  match st.clickhouse_client with
  | some c =>
    if st.exporter_type == ExporterType.clickhouse || st.exporter_type == ExporterType.both then
      _get_logs_clickhouse c limit offset status model
    else pg
  | none => pg

/-- One row of the per-model aggregate result. -/
structure ModelStat where
  model_name : String
  requests_count : Nat
  tokens_generated : Int
  avg_latency_ms : Rat
  error_count : Nat
  last_used : Option Nat
deriving DecidableEq, Repr

/-- The shared `GROUP BY model ... ORDER BY requests_count DESC` body of
the two model-stats queries over `request_logs`. -/
def modelStatsFrom (rows : List LogRow) : List ModelStat :=
  let names := (rows.map (fun r => r.model)).dedup
  let stats := names.map (fun m =>
    let rs := rows.filter (fun r => r.model == m)
    { model_name := m
      requests_count := rs.length
      tokens_generated := (rs.map (fun r => r.tokens_generated)).sum
      avg_latency_ms :=
        if rs.length = 0 then 0 else (rs.map (fun r => r.latency_ms)).sum / (rs.length : Rat)
      error_count := (rs.filter (fun r => r.status == "error")).length
      last_used := (rs.map (fun r => r.timestamp)).max? : ModelStat })
  List.insertionSort (fun a b => b.requests_count ≤ a.requests_count) stats

/-- `DatabaseManager._get_model_stats_clickhouse`
(`dependencies.py` lines 564-595); any exception → `[]`. -/
def _get_model_stats_clickhouse (c : DBConn) : List ModelStat :=
  match execLogs c with
  | Except.error _ => []
  | Except.ok rows => modelStatsFrom rows

/-- `DatabaseManager._get_model_stats_postgres`
(`dependencies.py` lines 597-632); any exception → `[]`. -/
def _get_model_stats_postgres (c : DBConn) : List ModelStat :=
  match execLogs c with
  | Except.error _ => []
  | Except.ok rows => modelStatsFrom rows

/-- `DatabaseManager.get_model_stats` (`dependencies.py` lines 555-562):
dispatch as in `get_current_stats`; `[]` when no backend is live. -/
def get_model_stats (st : DBState) : List ModelStat :=
  let pg := match st.postgres_session_factory with
    | some p => _get_model_stats_postgres p
    | none => []
  match st.clickhouse_client with
  | some c =>
    if st.exporter_type == ExporterType.clickhouse || st.exporter_type == ExporterType.both then
      _get_model_stats_clickhouse c
    else pg
  | none => pg

/-! ### Concrete fixtures

Closed states and tables used to evaluate the embedded operations at
concrete inputs. -/

/-- A live-but-failing ClickHouse connection holding one metric row. -/
def chFailingConn : DBConn :=
  { failing := true
    metrics := [{ timestamp := 10, metric_name := "ollama_errors_total", metric_value := 4 }]
    request_logs := [] }

/-- A manager whose selected ClickHouse backend fails on every query. -/
def chFailingState : DBState :=
  { exporter_type := ExporterType.clickhouse
    clickhouse_client := some chFailingConn
    postgres_session_factory := none
    start_time := 0 }

/-- A manager whose selected Postgres backend fails on every query. -/
def pgFailingState : DBState :=
  { exporter_type := ExporterType.postgres
    clickhouse_client := none
    postgres_session_factory := some { failing := true, metrics := [], request_logs := [] }
    start_time := 0 }

/-- A manager created at time 5 with no live backend at all. -/
def noBackendState : DBState :=
  { exporter_type := ExporterType.clickhouse
    clickhouse_client := none
    postgres_session_factory := none
    start_time := 5 }

/-- Seven metric rows, one per hour boundary of a 6-hour window that
straddles seven distinct hours (probed at `now = 23400`, i.e. 06:30). -/
def sevenHourRows : List MetricRow :=
  [{ timestamp := 1800, metric_name := "ollama_requests_total", metric_value := 1 },
   { timestamp := 3600, metric_name := "ollama_requests_total", metric_value := 1 },
   { timestamp := 7200, metric_name := "ollama_requests_total", metric_value := 1 },
   { timestamp := 10800, metric_name := "ollama_requests_total", metric_value := 1 },
   { timestamp := 14400, metric_name := "ollama_requests_total", metric_value := 1 },
   { timestamp := 18000, metric_name := "ollama_requests_total", metric_value := 1 },
   { timestamp := 21600, metric_name := "ollama_requests_total", metric_value := 1 }]

/-- A manager with a healthy ClickHouse backend holding `sevenHourRows`. -/
def chSevenHourState : DBState :=
  { exporter_type := ExporterType.clickhouse
    clickhouse_client := some { failing := false, metrics := sevenHourRows, request_logs := [] }
    postgres_session_factory := none
    start_time := 0 }

/-- A manager with a healthy Postgres backend holding two rows one
minute apart inside the same hour (11:59 and 11:58). -/
def pgTwoMinuteState : DBState :=
  { exporter_type := ExporterType.postgres
    clickhouse_client := none
    postgres_session_factory := some
      { failing := false
        metrics := [{ timestamp := 43140, metric_name := "ollama_requests_total", metric_value := 1 },
                    { timestamp := 43080, metric_name := "ollama_requests_total", metric_value := 1 }]
        request_logs := [] }
    start_time := 0 }

/-- A manager with a healthy ClickHouse backend holding a single row. -/
def chOneRowState : DBState :=
  { exporter_type := ExporterType.clickhouse
    clickhouse_client := some
      { failing := false
        metrics := [{ timestamp := 100, metric_name := "ollama_requests_total", metric_value := 1 }]
        request_logs := [] }
    postgres_session_factory := none
    start_time := 0 }

/-- A manager with a healthy Postgres backend holding a single row. -/
def pgOneRowState : DBState :=
  { exporter_type := ExporterType.postgres
    clickhouse_client := none
    postgres_session_factory := some
      { failing := false
        metrics := [{ timestamp := 43140, metric_name := "ollama_requests_total", metric_value := 1 }]
        request_logs := [] }
    start_time := 0 }

/-! ## Theorems -/

/-- C1 (counterexample): on a running supervisor holding process 7, a
failing SIGTERM signaling step makes `stop` raise `ServiceStopError`
while the process handle is still `some 7` and `_is_running` is still
`true` — contradicting the claim that a failed `stop` clears the handle
and leaves the supervisor in the stopped state. -/
theorem stop_failure_keeps_handle_counterexample :
    (stop { is_running := true, process := some 7 }
        { term_signal_fails := true, exits_within_timeout := false, kill_fails := false }).1.process
        = some 7 ∧
    (stop { is_running := true, process := some 7 }
        { term_signal_fails := true, exits_within_timeout := false, kill_fails := false }).1.is_running
        = true ∧
    (stop { is_running := true, process := some 7 }
        { term_signal_fails := true, exits_within_timeout := false, kill_fails := false }).2
        = StopResult.serviceStopError := by
  decide

/-- C1 (amended): if `stop` is called while the supervisor is running
with a live handle and the signaling/wait sequence raises (either the
SIGTERM group signal or the SIGKILL escalation after a graceful-wait
timeout), `stop` raises `ServiceStopError` and leaves the state
*unchanged*: the handle is not cleared and the supervisor still reports
running, so the `Stopped` state is not reached on this path. -/
theorem stop_failure_leaves_state_unchanged (st : ServiceState) (w : StopWorld) (p : Nat)
    (h1 : st.is_running = true) (h2 : st.process = some p)
    (h3 : w.term_signal_fails = true ∨
      (w.exits_within_timeout = false ∧ w.kill_fails = true)) :
    stop st w = (st, StopResult.serviceStopError) := by
  unfold stop
  rw [h1, h2]
  rcases h3 with h3 | ⟨h3a, h3b⟩
  · simp [h3]
  · simp [h3a, h3b]

/-- C1 (witness for the amended theorem): concrete run at a running
supervisor with pid 7 and a failing SIGTERM step. -/
theorem stop_failure_leaves_state_unchanged_witness :
    stop { is_running := true, process := some 7 }
        { term_signal_fails := true, exits_within_timeout := false, kill_fails := false } =
      ({ is_running := true, process := some 7 }, StopResult.serviceStopError) :=
  stop_failure_leaves_state_unchanged _ _ 7 rfl rfl (Or.inl rfl)

/-- C2 (counterexample): with the supervisor stopped, a successful spawn
(pid 5), the process alive after the startup delay, and the internal
probe raising `ConnectionError`, `start` does *not* absorb the failure:
it raises `ServiceStartError` and leaves `_is_running = false` (the
spawned process is killed and the handle cleared by the generic
`except Exception` cleanup) — contradicting the claim that a
`ConnectionError` from the internal probe is absorbed and the supervisor
still transitions to running. -/
theorem start_connectionError_aborts_counterexample :
    start { is_running := false, process := none } (SpawnOutcome.spawned 5) false
        HCResult.connectionError =
      ({ is_running := false, process := none }, StartResult.serviceStartError, true) := by
  decide

/-- C2 (amended): when the probe invoked internally during `start` fails
and the spawned process is still alive, only a `HealthCheckError` is
absorbed (logged, and the supervisor still transitions to running with
the new handle); a `ConnectionError` is not matched by the
`except HealthCheckError` handler and falls to the generic
`except Exception` path, which kills the spawned process, clears the
handle and raises `ServiceStartError`, leaving the supervisor not
running. -/
theorem start_probe_failure_paths (st : ServiceState) (pid : Nat)
    (h : st.is_running = false) :
    start st (SpawnOutcome.spawned pid) false HCResult.healthCheckError =
      ({ st with process := some pid, is_running := true }, StartResult.returned, true) ∧
    start st (SpawnOutcome.spawned pid) false HCResult.connectionError =
      ({ st with process := none }, StartResult.serviceStartError, true) := by
  unfold start
  rw [h]
  simp

/-- C2 (witness for the amended theorem): concrete run from the stopped
state with pid 5. -/
theorem start_probe_failure_paths_witness :
    start { is_running := false, process := none } (SpawnOutcome.spawned 5) false
        HCResult.healthCheckError =
      ({ is_running := true, process := some 5 }, StartResult.returned, true) ∧
    start { is_running := false, process := none } (SpawnOutcome.spawned 5) false
        HCResult.connectionError =
      ({ is_running := false, process := none }, StartResult.serviceStartError, true) :=
  start_probe_failure_paths { is_running := false, process := none } 5 rfl

/-- C7: calling `start` on an already-running supervisor returns
immediately with a warning: no process is spawned (third component
`false`), and the state — including the process handle — is unchanged,
whatever the environment would have done. -/
theorem start_idempotent_when_running (st : ServiceState) (spawn : SpawnOutcome)
    (exited : Bool) (probe : HCResult) (h : st.is_running = true) :
    start st spawn exited probe = (st, StartResult.returned, false) := by
  unfold start
  rw [h]
  simp

/-- C7 (witness): concrete run on a running supervisor holding pid 3;
the environment would have spawned pid 9 and probed successfully, yet
nothing changes. -/
theorem start_idempotent_when_running_witness :
    start { is_running := true, process := some 3 } (SpawnOutcome.spawned 9) false
        (HCResult.ok true) =
      ({ is_running := true, process := some 3 }, StartResult.returned, false) :=
  start_idempotent_when_running _ (SpawnOutcome.spawned 9) false (HCResult.ok true) rfl

/-- Helper for C3: resolving the retry loop from any intermediate
attempt when every probe attempt hits a connection-level failure.  The
fuel is maintained at `max_retries + 1 - attempt`. -/
theorem hcAux_allClientError (out : Nat → ProbeOutcome) (mr : Nat)
    (hout : ∀ i, out i = ProbeOutcome.clientError) :
    ∀ fuel attempt sleeps, attempt + fuel = mr + 1 → 1 ≤ fuel →
      healthCheckAux out mr attempt sleeps fuel =
        { result := HCResult.connectionError, attempts := mr + 1,
          sleeps := sleeps + (fuel - 1) } := by
  intro fuel
  induction fuel with
  | zero => intro attempt sleeps _ hf; omega
  | succ f ih =>
    intro attempt sleeps hsum _
    rw [healthCheckAux, hout attempt]
    by_cases hlt : attempt < mr
    · rw [if_pos hlt]
      have hf : 1 ≤ f := by omega
      rw [ih (attempt + 1) (sleeps + 1) (by omega) hf]
      have : sleeps + 1 + (f - 1) = sleeps + (f + 1 - 1) := by omega
      rw [this]
    · rw [if_neg hlt]
      have ha : attempt = mr := by omega
      have hf : f = 0 := by omega
      subst ha hf
      rfl

/-- C3: for every retry budget `n`, if every probe attempt encounters a
connection-level failure (`aiohttp.ClientError`), then `health_check`
makes exactly `n + 1` attempts, sleeps the 1-second backoff `n` times,
and ends by raising `ConnectionError` (not `HealthCheckError`) on the
final attempt. -/
theorem health_check_all_connection_failures (n : Nat) (out : Nat → ProbeOutcome)
    (h : ∀ i, out i = ProbeOutcome.clientError) :
    health_check out n =
      { result := HCResult.connectionError, attempts := n + 1, sleeps := n } := by
  have := hcAux_allClientError out n h (n + 1) 0 0 (by omega) (by omega)
  simpa [health_check] using this

/-- C3 (witness): `health_check(retries := 2)` against an environment
where every attempt is a connection failure makes exactly 3 attempts and
raises `ConnectionError`. -/
theorem health_check_all_connection_failures_witness :
    health_check (fun _ => ProbeOutcome.clientError) 2 =
      { result := HCResult.connectionError, attempts := 3, sleeps := 2 } :=
  health_check_all_connection_failures 2 (fun _ => ProbeOutcome.clientError) (fun _ => rfl)

/-- C9 (counterexample): with a budget of 3 retries, a first attempt
answering HTTP 500 and a second answering HTTP 200, `health_check`
succeeds after exactly 2 attempts but performs *zero* backoff sleeps —
contradicting the claim that exactly one 1-second backoff sleep happens
between every pair of consecutive attempts regardless of the failure
kind: the sleep only happens in the connection-failure branch. -/
theorem health_check_no_sleep_after_non200_counterexample :
    health_check (fun i => if i = 0 then ProbeOutcome.http 500 else ProbeOutcome.http 200) 3 =
      { result := HCResult.ok true, attempts := 2, sleeps := 0 } := by
  decide

/-- C9 (amended): `health_check` performs the fixed 1-second backoff
sleep only after a connection-level failure on a non-final attempt; a
non-200 HTTP response is retried immediately with no sleep.  When the
first attempt fails with a connection-level failure and the second
returns HTTP 200, `health_check` succeeds after exactly 2 attempts with
exactly one backoff sleep; when the first attempt instead returns a
non-200 response, it succeeds after exactly 2 attempts with zero
sleeps. -/
theorem health_check_backoff_only_after_connection_failure
    (out1 out2 : Nat → ProbeOutcome) (mr code : Nat) (hmr : 1 ≤ mr)
    (h1 : out1 0 = ProbeOutcome.clientError) (h2 : out1 1 = ProbeOutcome.http 200)
    (h3 : out2 0 = ProbeOutcome.http code) (hcode : code ≠ 200)
    (h4 : out2 1 = ProbeOutcome.http 200) :
    health_check out1 mr = { result := HCResult.ok true, attempts := 2, sleeps := 1 } ∧
    health_check out2 mr = { result := HCResult.ok true, attempts := 2, sleeps := 0 } := by
  obtain ⟨m, rfl⟩ : ∃ m, mr = m + 1 := ⟨mr - 1, by omega⟩
  constructor
  · simp [health_check, healthCheckAux, h1, h2]
  · simp [health_check, healthCheckAux, h3, h4, hcode]

/-- C9 (witness for the amended theorem): concrete runs with budget 3;
connection failure then 200 gives one sleep, HTTP 500 then 200 gives
none. -/
theorem health_check_backoff_only_after_connection_failure_witness :
    health_check (fun i => if i = 0 then ProbeOutcome.clientError else ProbeOutcome.http 200) 3 =
      { result := HCResult.ok true, attempts := 2, sleeps := 1 } ∧
    health_check (fun i => if i = 0 then ProbeOutcome.http 500 else ProbeOutcome.http 200) 3 =
      { result := HCResult.ok true, attempts := 2, sleeps := 0 } :=
  health_check_backoff_only_after_connection_failure
    (fun i => if i = 0 then ProbeOutcome.clientError else ProbeOutcome.http 200)
    (fun i => if i = 0 then ProbeOutcome.http 500 else ProbeOutcome.http 200)
    3 500 (by omega) rfl rfl rfl (by omega) rfl

/-- Helper for C10: every exit of the retry loop is a `return True`, a
raised `ConnectionError`, or a raised `HealthCheckError`. -/
theorem hcAux_result_cases (out : Nat → ProbeOutcome) (mr : Nat) :
    ∀ fuel attempt sleeps,
      (healthCheckAux out mr attempt sleeps fuel).result = HCResult.ok true ∨
      (healthCheckAux out mr attempt sleeps fuel).result = HCResult.connectionError ∨
      (healthCheckAux out mr attempt sleeps fuel).result = HCResult.healthCheckError := by
  intro fuel
  induction fuel with
  | zero => intro _ _; right; right; rfl
  | succ f ih =>
    intro attempt sleeps
    cases hout : out attempt with
    | http code =>
      by_cases hc : code = 200
      · simp [healthCheckAux, hout, hc]
      · simp only [healthCheckAux, hout, if_neg hc]
        exact ih (attempt + 1) sleeps
    | clientError =>
      by_cases hlt : attempt < mr
      · simp only [healthCheckAux, hout, if_pos hlt]
        exact ih (attempt + 1) (sleeps + 1)
      · simp [healthCheckAux, hout, hlt]
    | unexpected => simp [healthCheckAux, hout]

/-- C10: for every retry budget and every sequence of probe outcomes,
`health_check` never returns `False`: it either returns `True` (on an
HTTP 200) or raises `ConnectionError` / `HealthCheckError`, despite its
declared boolean return contract. -/
theorem health_check_never_returns_false (out : Nat → ProbeOutcome) (mr : Nat) :
    (health_check out mr).result = HCResult.ok true ∨
    (health_check out mr).result = HCResult.connectionError ∨
    (health_check out mr).result = HCResult.healthCheckError :=
  hcAux_result_cases out mr (mr + 1) 0 0

/-- C8: given integer inputs, `NetworkConfig` construction succeeds if
and only if `1 ≤ port ≤ 65535`, `timeout > 0` and `max_retries ≥ 0`
(first conjunct); in particular, with valid `timeout` and `max_retries`,
construction succeeds for `port = 1` and `port = 65535` (second
conjunct) and fails with a validation error for every port outside
`[1, 65535]` (third conjunct). -/
theorem networkConfig_validation (host : String) (timeout max_retries : Int) :
    (∀ port : Int,
      constructionOk (mkNetworkConfig host port timeout max_retries) = true ↔
        (1 ≤ port ∧ port ≤ 65535 ∧ 0 < timeout ∧ 0 ≤ max_retries)) ∧
    (0 < timeout → 0 ≤ max_retries →
      constructionOk (mkNetworkConfig host 1 timeout max_retries) = true ∧
      constructionOk (mkNetworkConfig host 65535 timeout max_retries) = true) ∧
    (∀ port : Int, port < 1 ∨ 65535 < port →
      constructionOk (mkNetworkConfig host port timeout max_retries) = false) := by
  have key : ∀ port : Int,
      constructionOk (mkNetworkConfig host port timeout max_retries) = true ↔
        (1 ≤ port ∧ port ≤ 65535 ∧ 0 < timeout ∧ 0 ≤ max_retries) := by
    intro port
    unfold mkNetworkConfig constructionOk
    split_ifs with h1 h2 h3 <;> simp <;> omega
  refine ⟨key, ?_, ?_⟩
  · intro ht hm
    exact ⟨(key 1).mpr ⟨by omega, by omega, ht, hm⟩,
      (key 65535).mpr ⟨by omega, by omega, ht, hm⟩⟩
  · intro port hout
    cases hok : constructionOk (mkNetworkConfig host port timeout max_retries) with
    | true =>
      have := (key port).mp hok
      omega
    | false => rfl

/-- C8 (witness): with `timeout = 30` and `max_retries = 3`,
construction succeeds for port 1 and port 65535 and fails for
port 70000. -/
theorem networkConfig_validation_witness :
    (constructionOk (mkNetworkConfig "0.0.0.0" 1 30 3) = true ∧
     constructionOk (mkNetworkConfig "0.0.0.0" 65535 30 3) = true) ∧
    constructionOk (mkNetworkConfig "0.0.0.0" 70000 30 3) = false :=
  ⟨(networkConfig_validation "0.0.0.0" 30 3).2.1 (by omega) (by omega),
   (networkConfig_validation "0.0.0.0" 30 3).2.2 70000 (Or.inr (by omega))⟩

/-- C5: with no live ClickHouse client and no live Postgres session
factory, `get_current_stats` returns (without raising — it is a total
function of the state) the documented empty snapshot: every numeric
field is zero and `uptime_hours` is the elapsed time since the manager's
creation divided by 3600. -/
theorem get_current_stats_no_backend (st : DBState) (now : Nat)
    (hch : st.clickhouse_client = none) (hpg : st.postgres_session_factory = none) :
    get_current_stats st now = _get_empty_stats st now ∧
    (get_current_stats st now).tokens_total = 0 ∧
    (get_current_stats st now).tokens_per_sec = 0 ∧
    (get_current_stats st now).error_count = 0 ∧
    (get_current_stats st now).request_count = 0 ∧
    (get_current_stats st now).avg_latency_ms = 0 ∧
    (get_current_stats st now).models_available = 0 ∧
    (get_current_stats st now).uptime_hours = ((now : Rat) - (st.start_time : Rat)) / 3600 := by
  have h : get_current_stats st now = _get_empty_stats st now := by
    unfold get_current_stats
    rw [hch, hpg]
  refine ⟨h, ?_, ?_, ?_, ?_, ?_, ?_, ?_⟩ <;>
    rw [h] <;> rfl

/-- C5 (witness): a manager created at time 5 with no backends, queried
at time 7205, reports all-zero counters and exactly 2 uptime hours. -/
theorem get_current_stats_no_backend_witness :
    get_current_stats noBackendState 7205 = _get_empty_stats noBackendState 7205 ∧
    (get_current_stats noBackendState 7205).uptime_hours = 2 := by
  have := get_current_stats_no_backend noBackendState 7205 rfl rfl
  refine ⟨this.1, ?_⟩
  rw [this.2.2.2.2.2.2.2]
  norm_num [noBackendState]

/-- C6: for each of the four query operations, a failure raised by the
selected backend adapter's query execution is caught and converted into
the very result used when no backend is configured — the empty snapshot,
`[]`, `{"total": 0, "logs": []}` and `[]` respectively — so no storage
layer error reaches the caller.  Stated for both dispatch targets: a
live-but-failing ClickHouse client (first conjunct) and a
live-but-failing Postgres session factory (second conjunct). -/
theorem query_failures_degrade_to_empty (st : DBState) (now limit offset : Nat)
    (tr g : String) (status model : Option String) (c : DBConn)
    (hfail : c.failing = true) :
    (st.clickhouse_client = some c →
      (st.exporter_type = ExporterType.clickhouse ∨ st.exporter_type = ExporterType.both) →
      get_current_stats st now = _get_empty_stats st now ∧
      get_history st tr g now = [] ∧
      get_logs st limit offset status model = { total := 0, logs := [] } ∧
      get_model_stats st = []) ∧
    (st.clickhouse_client = none → st.postgres_session_factory = some c →
      get_current_stats st now = _get_empty_stats st now ∧
      get_history st tr g now = [] ∧
      get_logs st limit offset status model = { total := 0, logs := [] } ∧
      get_model_stats st = []) := by
  constructor
  · intro hch htype
    have hcond : (st.exporter_type == ExporterType.clickhouse ||
        st.exporter_type == ExporterType.both) = true := by
      rcases htype with h | h <;> rw [h] <;> rfl
    refine ⟨?_, ?_, ?_, ?_⟩
    · unfold get_current_stats
      rw [hch]
      simp only [hcond, if_pos]
      unfold _get_current_stats_clickhouse execMetrics
      rw [hfail]
      rfl
    · unfold get_history
      rw [hch]
      simp only [hcond, if_pos]
      unfold _get_history_clickhouse execMetrics
      rw [hfail]
      rfl
    · unfold get_logs
      rw [hch]
      simp only [hcond, if_pos]
      unfold _get_logs_clickhouse execLogs
      rw [hfail]
      rfl
    · unfold get_model_stats
      rw [hch]
      simp only [hcond, if_pos]
      unfold _get_model_stats_clickhouse execLogs
      rw [hfail]
      rfl
  · intro hch hpg
    refine ⟨?_, ?_, ?_, ?_⟩
    · simp [get_current_stats, hch, hpg, _get_current_stats_postgres, execMetrics, hfail]
    · simp [get_history, hch, hpg, _get_history_postgres, execMetrics, hfail]
    · simp [get_logs, hch, hpg, _get_logs_postgres, execLogs, hfail]
    · simp [get_model_stats, hch, hpg, _get_model_stats_postgres, execLogs, hfail]

/-- C6 (witness): a failing ClickHouse backend holding data, and a
failing Postgres backend, both degrade every query to the empty result
at concrete inputs. -/
theorem query_failures_degrade_to_empty_witness :
    (get_current_stats chFailingState 100 = _get_empty_stats chFailingState 100 ∧
      get_history chFailingState "6h" "1h" 100 = [] ∧
      get_logs chFailingState 100 0 none none = { total := 0, logs := [] } ∧
      get_model_stats chFailingState = []) ∧
    (get_current_stats pgFailingState 100 = _get_empty_stats pgFailingState 100 ∧
      get_history pgFailingState "6h" "1h" 100 = [] ∧
      get_logs pgFailingState 100 0 none none = { total := 0, logs := [] } ∧
      get_model_stats pgFailingState = []) :=
  ⟨(query_failures_degrade_to_empty chFailingState 100 100 0 "6h" "1h" none none
      chFailingConn rfl).1 rfl (Or.inl rfl),
   (query_failures_degrade_to_empty pgFailingState 100 100 0 "6h" "1h" none none
      { failing := true, metrics := [], request_logs := [] } rfl).2 rfl rfl⟩

/-- Helper: projecting the bucket timestamp out of the aggregated
history points recovers the bucket-key list. -/
theorem map_timestamp_historyPoint (trunc : Nat → Nat) (rows : List MetricRow)
    (now hours g : Nat) (keys : List Nat) :
    (keys.map (historyPoint trunc rows now hours g)).map HistoryPoint.timestamp = keys := by
  induction keys with
  | nil => rfl
  | cons k ks ih =>
    show (historyPoint trunc rows now hours g k).timestamp ::
      ((ks.map (historyPoint trunc rows now hours g)).map HistoryPoint.timestamp) = k :: ks
    rw [ih]
    rfl

/-- Helper: the bucket-key list is sorted newest-first. -/
theorem bucketKeys_sorted (trunc : Nat → Nat) (rows : List MetricRow) (now hours : Nat) :
    (bucketKeys trunc rows now hours).Sorted (· ≥ ·) :=
  List.sorted_insertionSort _ _

/-- Helper: the bucket-key list has no duplicates (SQL `GROUP BY`). -/
theorem bucketKeys_nodup (trunc : Nat → Nat) (rows : List MetricRow) (now hours : Nat) :
    (bucketKeys trunc rows now hours).Nodup :=
  (List.perm_insertionSort _ _).nodup_iff.mpr (List.nodup_dedup _)

/-- Helper: every bucket key is the truncation of some in-window row
timestamp. -/
theorem bucketKeys_mem (trunc : Nat → Nat) (rows : List MetricRow) (now hours b : Nat)
    (hb : b ∈ bucketKeys trunc rows now hours) :
    ∃ r ∈ rows, now - hours * 3600 ≤ r.timestamp ∧ trunc r.timestamp = b := by
  have hb' := (List.perm_insertionSort _ _).mem_iff.mp hb
  rw [List.mem_dedup] at hb'
  obtain ⟨r, hr, hrb⟩ := List.mem_map.mp hb'
  have hrw := List.mem_filter.mp hr
  exact ⟨r, hrw.1, by simpa using hrw.2, hrb⟩

/-- Helper: hour truncation of timestamps in a 6-hour window landing on
at most 7 distinct hours: with all row timestamps at most `now`, the
6h/1h ClickHouse bucket-key list has length at most 7. -/
theorem bucketKeys_6h_hour_length_le (rows : List MetricRow) (now : Nat)
    (hts : ∀ r ∈ rows, r.timestamp ≤ now) :
    (bucketKeys (toStartOfInterval 60) rows now 6).length ≤ 7 := by
  classical
  set L := ((historyWindow rows now 6).map (fun r => toStartOfInterval 60 r.timestamp)).dedup
    with hL
  have hperm : List.Perm (bucketKeys (toStartOfInterval 60) rows now 6) L :=
    List.perm_insertionSort _ _
  have hnd : L.Nodup := List.nodup_dedup _
  have hmem : ∀ b ∈ L, ∃ k, k < 7 ∧ b = ((now - 21600) / 3600 + k) * 3600 := by
    intro b hb
    rw [hL, List.mem_dedup] at hb
    obtain ⟨r, hr, rfl⟩ := List.mem_map.mp hb
    have hrw := List.mem_filter.mp hr
    have h1 : now - 6 * 3600 ≤ r.timestamp := by simpa using hrw.2
    have h2 : r.timestamp ≤ now := hts r hrw.1
    have htr : toStartOfInterval 60 r.timestamp = r.timestamp / 3600 * 3600 := by
      norm_num [toStartOfInterval]
    rw [htr]
    exact ⟨r.timestamp / 3600 - (now - 21600) / 3600, by omega, by omega⟩
  have hsub : L.toFinset ⊆ (Finset.range 7).image (fun k => ((now - 21600) / 3600 + k) * 3600) := by
    intro b hb
    obtain ⟨k, hk, hbe⟩ := hmem b (List.mem_toFinset.mp hb)
    exact Finset.mem_image.mpr ⟨k, Finset.mem_range.mpr hk, hbe.symm⟩
  have hcard : L.toFinset.card = L.length := List.toFinset_card_of_nodup hnd
  have himg : ((Finset.range 7).image (fun k => ((now - 21600) / 3600 + k) * 3600)).card ≤ 7 :=
    le_trans Finset.card_image_le (by simp)
  have hlen : L.length ≤ 7 := by
    have := Finset.card_le_card hsub
    omega
  rw [hperm.length_eq]
  exact hlen

/-- C4 (counterexample): two concrete refutations of the claim.  First,
the ClickHouse adapter at `range="6h", granularity="1h"` probed at
`now = 23400` (06:30) over rows sitting on the seven hour boundaries of
the window returns **7** buckets, not at most 6 — the 6-hour window
straddles seven distinct hours.  Second, the Postgres adapter does not
truncate to the granularity width at all: with `granularity="1h"` it
returns the two minute-truncated buckets 43140 (11:59) and 43080 (11:58)
inside the same hour, and 43140 is not hour-truncated
(`43140 % 3600 = 3540`). -/
theorem history_bucketing_counterexample :
    (get_history chSevenHourState "6h" "1h" 23400).length = 7 ∧
    (get_history pgTwoMinuteState "6h" "1h" 43200).map HistoryPoint.timestamp =
      [43140, 43080] ∧
    43140 % 3600 = 3540 := by
  refine ⟨by decide, by decide, by decide⟩

/-- C4 (amended): the *ClickHouse* adapter buckets rows by truncating
timestamps to the requested granularity width; for `range="6h"`,
`granularity="1h"` (and rows no newer than the probe time) its result
contains at most **7** buckets — one more than the spec's 6, because a
6-hour window generally straddles seven hour boundaries — each bucket
carrying a distinct hour-truncated timestamp, ordered newest-first.
The *Postgres* adapter instead always truncates to the minute
(`date_trunc('minute', ...)`), whatever range and granularity are
requested, so its bucket timestamps are minute-truncated, not
granularity-truncated. -/
theorem history_bucketing :
    (∀ (st : DBState) (c : DBConn) (now : Nat),
      st.clickhouse_client = some c →
      st.exporter_type = ExporterType.clickhouse →
      c.failing = false →
      (∀ r ∈ c.metrics, r.timestamp ≤ now) →
      ((get_history st "6h" "1h" now).map HistoryPoint.timestamp).length ≤ 7 ∧
      ((get_history st "6h" "1h" now).map HistoryPoint.timestamp).Nodup ∧
      ((get_history st "6h" "1h" now).map HistoryPoint.timestamp).Sorted (· ≥ ·) ∧
      (∀ b ∈ (get_history st "6h" "1h" now).map HistoryPoint.timestamp, b % 3600 = 0)) ∧
    (∀ (st : DBState) (p : DBConn) (tr g : String) (now : Nat),
      st.clickhouse_client = none →
      st.postgres_session_factory = some p →
      ∀ b ∈ (get_history st tr g now).map HistoryPoint.timestamp, b % 60 = 0) := by
  constructor
  · intro st c now hch htype hfail hts
    have hcond : (st.exporter_type == ExporterType.clickhouse ||
        st.exporter_type == ExporterType.both) = true := by
      rw [htype]; rfl
    have hexec : execMetrics c = Except.ok c.metrics := by
      simp [execMetrics, hfail]
    have hredux : (get_history st "6h" "1h" now).map HistoryPoint.timestamp =
        bucketKeys (toStartOfInterval 60) c.metrics now 6 := by
      unfold get_history
      rw [hch]
      simp only [hcond, if_pos]
      unfold _get_history_clickhouse
      rw [hexec]
      exact map_timestamp_historyPoint _ _ _ _ _ _
    rw [hredux]
    refine ⟨bucketKeys_6h_hour_length_le c.metrics now hts,
      bucketKeys_nodup _ _ _ _, bucketKeys_sorted _ _ _ _, ?_⟩
    intro b hb
    obtain ⟨r, _, _, hrb⟩ := bucketKeys_mem _ _ _ _ _ hb
    have htr : toStartOfInterval 60 r.timestamp = r.timestamp / 3600 * 3600 := by
      norm_num [toStartOfInterval]
    rw [← hrb, htr]
    exact Nat.mul_mod_left _ _
  · intro st p tr g now hch hpg b hb
    have hredux : get_history st tr g now =
        _get_history_postgres p now (range_map tr) (granularity_map g) := by
      unfold get_history
      rw [hch, hpg]
    rw [hredux] at hb
    unfold _get_history_postgres at hb
    cases hf : p.failing with
    | true => simp [execMetrics, hf] at hb
    | false =>
      have hexec : execMetrics p = Except.ok p.metrics := by
        simp [execMetrics, hf]
      rw [hexec] at hb
      rw [map_timestamp_historyPoint] at hb
      obtain ⟨r, _, _, hrb⟩ := bucketKeys_mem _ _ _ _ _ hb
      rw [← hrb]
      unfold date_trunc_minute
      exact Nat.mul_mod_left _ _

/-- C4 (witness for the amended theorem): the ClickHouse bound applied
to a one-row backend probed at time 200, and the Postgres
minute-truncation applied to the concrete bucket 43140. -/
theorem history_bucketing_witness :
    ((get_history chOneRowState "6h" "1h" 200).map HistoryPoint.timestamp).length ≤ 7 ∧
    43140 % 60 = 0 :=
  ⟨(history_bucketing.1 chOneRowState _ 200 rfl rfl rfl (by decide)).1,
   history_bucketing.2 pgOneRowState _ "6h" "1h" 43200 rfl rfl 43140 (by decide)⟩
